import Mathlib

/-!
Shallow embedding of `camerabot/camerabot.py` (hikvision-camera-bot).

The module under verification is a Telegram-bot front end: an authorization
decorator, a camera-selection decorator (regex extraction of a `cam_<id>`
token from the command text plus a registry lookup), and a family of command
handlers that call into an opaque camera collaborator and dispatch replies.

Effectful Python code is embedded as pure Lean functions that return an
explicit trace of observable events (log lines, replies sent to the
originating chat, direct sends, camera-collaborator calls, thread spawns),
together with the resulting bot state and an optional uncaught exception.
The camera collaborator (`HomeCam`) is modelled as a record of pure
functions; its fallible operations return `Except` with the error message
that Python's `str(err)` would produce.  Timestamp rendering (Python
`datetime` / strftime) is an external library collaborator and is passed in
as an abstract formatting environment `TimeFmt`.
-/

/-- Severity levels of the logger calls used by the module. -/
inductive Severity where
  | error
  | info
  | debug
deriving DecidableEq, Repr

/-- An outbound reply payload: plain text, HTML text, inline photo, or a
document with optional filename/caption (mirroring the telegram send calls
used by the module). -/
inductive Reply where
  | text (s : String)
  | html (s : String)
  | photo (photo : String) (caption : Option String)
  | document (doc : String) (filename : Option String) (caption : Option String)
deriving DecidableEq, Repr

/-- One observable effect of the module: a log record, a reply to the
originating chat, a direct send to a user id, a call into the camera
collaborator, or spawning the stop-polling thread. -/
inductive Event where
  | log (sev : Severity) (msg : String)
  | send (r : Reply)
  | sendTo (uid : Int) (r : Reply)
  | camCall (op : String)
  | spawnStopThread
deriving DecidableEq, Repr

/-- Exceptions that can propagate out of the embedded code.  The only such
exception in the modelled flows is Python's `KeyError` from a failed
dictionary lookup (`UserAuthError` is raised and caught inside
`authorization_check` itself; `HomeCamError` is caught in every handler). -/
inductive Exc where
  | keyError (key : String)
deriving DecidableEq, Repr

/-- The chat/sender data carried by an inbound telegram message
(`update.message.chat`). -/
structure Chat where
  id : Int
  username : String
  first_name : String
  last_name : String

/-- The message object `update.message`: the sender and the raw command text. -/
structure Message where
  chat : Chat
  text : String

/-- An inbound update object. -/
structure Update where
  message : Message

/-- The camera collaborator (`HomeCam`), opaque to this module: a
description, the snapshot counter attribute read when building captions, and
the two fallible operations, returning `Except errMsg result`. -/
structure HomeCam where
  description : String
  snapshots_taken : Nat
  take_snapshot : Bool → Except String (String × Int)
  motion_detection_switch : Bool → Except String Unit

/-- One value of the camera registry: `{'instance': cam, 'commands': [...]}`.
(`instance` is a Lean keyword, so the field is named `inst`.) -/
structure CamEntry where
  inst : HomeCam
  commands : List String

/-- The `CameraBot` state as far as this module reads it: the bot's
`first_name` (from the Telegram API), the `_user_ids` allow-list and the
`_cam_instances` registry (a Python dict, embedded as an association list
in insertion order). -/
structure CameraBot where
  first_name : String
  user_ids : List Int
  cam_instances : List (String × CamEntry)

/-- The outcome of running a piece of the module: the bot state afterwards,
the trace of observable events in order, and the exception (if any) that
propagates out uncaught. -/
structure Outcome where
  bot : CameraBot
  events : List Event
  raised : Option Exc

/-- Python dict lookup `d[k]` on the registry: first (only) binding of `k`. -/
def dictGet (l : List (String × CamEntry)) (k : String) : Option CamEntry :=
  match l with
  | [] => none
  | (k', v) :: t => if k' = k then some v else dictGet t k

/-- Python `sep.join(l)`. -/
def strJoin (sep : String) : List String → String
  | [] => ""
  | [a] => a
  | a :: b :: t => a ++ sep ++ strJoin sep (b :: t)

/-- Embeds `os.path.basename`: the part of a path after the last `/`. -/
def basename (s : String) : String :=
  (s.splitOn "/").getLastD s

/-- Embeds `CameraBot._get_user_info`: the diagnostic line identifying the sender. -/
def get_user_info (update : Update) : String :=
  "Request from user_id: " ++ toString update.message.chat.id ++
    ", username: " ++ update.message.chat.username ++
    ", first_name: " ++ update.message.chat.first_name ++
    ", last_name: " ++ update.message.chat.last_name

/-- Does the literal pattern `cam_` occur at index `i` of `l`? -/
def camAt (l : List Char) (i : Nat) : Bool :=
  (l.drop i).take 4 == ['c', 'a', 'm', '_']

/-- Is `i` a position where the regex `^.*(?=cam_)` can end its `.*` part:
`cam_` occurs at `i` and no newline occurs before `i` (Python's `.` does not
match a newline)? -/
def camMatchIdx (l : List Char) (i : Nat) : Bool :=
  camAt l i && !(l.take i).contains '\n'

/-- The index at which the greedy, start-anchored match of `^.*(?=cam_)`
ends: the largest valid position, if any. -/
def camSplitIdx (l : List Char) : Option Nat :=
  ((List.range l.length).filter (camMatchIdx l)).getLast?

/-- Embeds `re.split(r'^.*(?=cam_)', text)[-1]`: the suffix of `text` from the end
of the greedy anchored match, i.e. from the last occurrence of `cam_` that
has no newline before it; the whole text when the regex does not match. -/
def extract_cam_id (s : String) : String :=
  match camSplitIdx s.data with
  | some i => String.mk (s.data.drop i)
  | none => s

/-- The `authorization_check` decorator: membership test of the sender's
chat id in the allow-list; on failure the `UserAuthError` is raised and
caught locally, producing two error-severity log records followed by the
fixed "Not authorized" reply, and the wrapped handler is never invoked. -/
def authorization_check (func : CameraBot → Update → Outcome)
    (bot : CameraBot) (update : Update) : Outcome :=
  if update.message.chat.id ∈ bot.user_ids then
    func bot update
  else
    { bot := bot
      events := [Event.log .error "User authorization error",
                 Event.log .error (get_user_info update),
                 Event.send (.text "Not authorized")]
      raised := none }

/-- The `camera_selection` decorator: extract the camera id from the command
text and look it up in `_cam_instances`; a missing key raises `KeyError`,
which is not caught here. -/
def camera_selection (func : CameraBot → Update → HomeCam → String → Outcome)
    (bot : CameraBot) (update : Update) : Outcome :=
  let cam_id := extract_cam_id update.message.text
  match dictGet bot.cam_instances cam_id with
  | none => { bot := bot, events := [], raised := some (Exc.keyError cam_id) }
  | some entry => func bot update entry.inst cam_id

/-- The strftime environment: `human` renders `%a %b %-d %H:%M:%S %Y`,
`underscored` renders `%a_%b_%-d_%H.%M.%S_%Y` (both via
`datetime.fromtimestamp`, an external collaborator). -/
structure TimeFmt where
  human : Int → String
  underscored : Int → String

/-- Embeds `CameraBot.send_cam_photo`: broadcast a document to every allow-listed
user (watchdog mode), or reply with the acknowledgment text followed by the
media as inline photo or filenamed document. -/
def send_cam_photo (bot : CameraBot) (photo : String) (update : Option Update)
    (caption : Option String) (reply_text : Option String)
    (full_snapshot_name : Option String) (full_pic : Bool)
    (from_watchdog : Bool) : Outcome :=
  if from_watchdog then
    { bot := bot
      events := bot.user_ids.map
        (fun uid => Event.sendTo uid (.document photo (some (basename photo)) caption))
      raised := none }
  else
    { bot := bot
      events := [Event.send (.text (reply_text.getD "None"))] ++
        (if full_pic then
          [Event.send (.document photo full_snapshot_name caption)]
         else
          [Event.send (.photo photo caption)])
      raised := none }

/-- Embeds `CameraBot.cmd_help`: explicit-request mode replies with the generic
pointer to `/list`; otherwise appended-footer mode looks the camera up again
and replies with its slash-command list; with both flags unset only the
trailing log record is emitted. -/
def cmd_help (bot : CameraBot) (update : Update) (append requested : Bool)
    (cam_id : Option String) : Outcome :=
  if requested then
    { bot := bot
      events := [Event.log .info "Help message has been requested",
                 Event.log .debug (get_user_info update),
                 Event.send (.text "Use /list command to list available cameras and commands"),
                 Event.log .info "Help message has been sent"]
      raised := none }
  else if append then
    match cam_id with
    | none =>
      -- `self._cam_instances[None]` raises `KeyError: None`.
      { bot := bot, events := [], raised := some (Exc.keyError "None") }
    | some cid =>
      match dictGet bot.cam_instances cid with
      | none => { bot := bot, events := [], raised := some (Exc.keyError cid) }
      | some entry =>
        { bot := bot
          events := [Event.send (.text ("Available commands\n" ++
                       strJoin "\n" (entry.commands.map (fun x => "/" ++ x)) ++
                       " or /list available cameras")),
                     Event.log .info "Help message has been sent"]
          raised := none }
  else
    { bot := bot
      events := [Event.log .info "Help message has been sent"]
      raised := none }

/-- Embeds `CameraBot._print_helper`: the footer after sending a picture. -/
def print_helper (bot : CameraBot) (update : Update) (cam_id : String) : Outcome :=
  cmd_help bot update true false (some cam_id)

/-- Body of `CameraBot.cmd_getpic` (inside both decorators). -/
def cmd_getpic_body (fmt : TimeFmt) (bot : CameraBot) (update : Update)
    (cam : HomeCam) (cam_id : String) : Outcome :=
  let pre := [Event.log .info ("Resized cam snapshot from " ++ cam.description ++ " requested"),
              Event.log .debug (get_user_info update),
              Event.camCall "take_snapshot"]
  match cam.take_snapshot true with
  | .error err =>
    { bot := bot
      events := pre ++ [Event.send (.text (err ++ "\nTry later or /list other cameras"))]
      raised := none }
  | .ok (photo, ts) =>
    let caption := "Pic taken on " ++ fmt.human ts ++ " (pic #" ++
      toString cam.snapshots_taken ++ ")"
    let reply_text := "Sending pic from " ++ cam.description ++ "..."
    let sent := send_cam_photo bot photo (some update) (some caption)
      (some reply_text) none false false
    let helper := print_helper bot update cam_id
    { bot := bot
      events := pre ++ [Event.log .info "Sending resized cam snapshot"] ++
        sent.events ++ [Event.log .info "Resized snapshot sent"] ++ helper.events
      raised := helper.raised }

/-- The decorated `cmd_getpic` handler. -/
def cmd_getpic (fmt : TimeFmt) : CameraBot → Update → Outcome :=
  authorization_check (camera_selection (cmd_getpic_body fmt))

/-- Body of `CameraBot.cmd_getfullpic` (inside both decorators). -/
def cmd_getfullpic_body (fmt : TimeFmt) (bot : CameraBot) (update : Update)
    (cam : HomeCam) (cam_id : String) : Outcome :=
  let pre := [Event.log .info "Full cam snapshot requested",
              Event.log .debug (get_user_info update),
              Event.camCall "take_snapshot"]
  match cam.take_snapshot false with
  | .error err =>
    { bot := bot
      events := pre ++ [Event.send (.text (err ++ "\nTry later or /list other cameras"))]
      raised := none }
  | .ok (photo, ts) =>
    let full_snapshot_name := "Full_snapshot_" ++ fmt.underscored ts ++ ".jpg"
    let caption := "Full pic taken on " ++ fmt.human ts ++ " (pic #" ++
      toString cam.snapshots_taken ++ ")"
    let reply_text := "Sending full pic from " ++ cam.description ++ "..."
    let sent := send_cam_photo bot photo (some update) (some caption)
      (some reply_text) (some full_snapshot_name) true false
    let helper := print_helper bot update cam_id
    { bot := bot
      events := pre ++ [Event.log .info "Sending full snapshot"] ++
        sent.events ++
        [Event.log .info ("Full cam snapshot " ++ full_snapshot_name ++ " sent")] ++
        helper.events
      raised := helper.raised }

/-- The decorated `cmd_getfullpic` handler. -/
def cmd_getfullpic (fmt : TimeFmt) : CameraBot → Update → Outcome :=
  authorization_check (camera_selection (cmd_getfullpic_body fmt))

/-- Body of `CameraBot.cmd_stop` (inside `authorization_check`). -/
def cmd_stop_body (bot : CameraBot) (update : Update) : Outcome :=
  let msg := "Stopping " ++ bot.first_name ++ " bot"
  { bot := bot
    events := [Event.log .info msg,
               Event.log .debug (get_user_info update),
               Event.send (.text msg),
               Event.spawnStopThread]
    raised := none }

/-- The decorated `cmd_stop` handler. -/
def cmd_stop : CameraBot → Update → Outcome :=
  authorization_check cmd_stop_body

/-- One camera block of the `/list` message. -/
def listCamBlock (p : String × CamEntry) : String :=
  "<b>Camera:</b> " ++ p.1 ++
    "\n<b>Description:</b> " ++ p.2.inst.description ++
    "\n<b>Commands:</b> " ++ strJoin ", " (p.2.commands.map (fun c => "/" ++ c))

/-- Body of `CameraBot.cmd_list_cams` (inside `authorization_check`). -/
def cmd_list_cams_body (bot : CameraBot) (update : Update) : Outcome :=
  let header := "<b>You have " ++ toString bot.cam_instances.length ++ " cameras:</b>"
  let msg := header :: bot.cam_instances.map listCamBlock
  { bot := bot
    events := [Event.log .info "Camera list has been requested",
               Event.send (.html (strJoin "\n\n" msg)),
               Event.log .info "Camera list has been sent"]
    raised := none }

/-- The decorated `cmd_list_cams` handler. -/
def cmd_list_cams : CameraBot → Update → Outcome :=
  authorization_check cmd_list_cams_body

/-- Body of `CameraBot.cmd_motion_detection_off` (inside both decorators). -/
def cmd_motion_detection_off_body (bot : CameraBot) (update : Update)
    (cam : HomeCam) (cam_id : String) : Outcome :=
  let pre := [Event.log .info "Disabling camera's Motion Detection has been requested",
              Event.log .debug (get_user_info update),
              Event.camCall "motion_detection_switch"]
  match cam.motion_detection_switch false with
  | .error err =>
    { bot := bot, events := pre ++ [Event.send (.text err)], raised := none }
  | .ok _ =>
    let msg := "Motion Detection successfully disabled."
    let helper := print_helper bot update cam_id
    { bot := bot
      events := pre ++ [Event.send (.text msg), Event.log .info msg] ++ helper.events
      raised := helper.raised }

/-- The decorated `cmd_motion_detection_off` handler. -/
def cmd_motion_detection_off : CameraBot → Update → Outcome :=
  authorization_check (camera_selection cmd_motion_detection_off_body)

/-- Body of `CameraBot.cmd_motion_detection_on` (inside both decorators). -/
def cmd_motion_detection_on_body (bot : CameraBot) (update : Update)
    (cam : HomeCam) (cam_id : String) : Outcome :=
  let pre := [Event.log .info "Enabling camera's Motion Detection has been requested",
              Event.log .debug (get_user_info update),
              Event.camCall "motion_detection_switch"]
  match cam.motion_detection_switch true with
  | .error err =>
    { bot := bot, events := pre ++ [Event.send (.text err)], raised := none }
  | .ok _ =>
    let msg := "Motion Detection successfully enabled."
    let helper := print_helper bot update cam_id
    { bot := bot
      events := pre ++ [Event.send (.text msg), Event.log .info msg] ++ helper.events
      raised := helper.raised }

/-- The decorated `cmd_motion_detection_on` handler. -/
def cmd_motion_detection_on : CameraBot → Update → Outcome :=
  authorization_check (camera_selection cmd_motion_detection_on_body)

/-- Embeds `CameraBot.send_startup_message`: the startup broadcast. -/
def send_startup_message (bot : CameraBot) : Outcome :=
  { bot := bot
    events := Event.log .info "Sending welcome message" ::
      bot.user_ids.map (fun uid => Event.sendTo uid
        (.text (bot.first_name ++ " bot started, see /help for available commands")))
    raised := none }

/-- Embeds `CameraBot.error_handler`: the generic error handler only logs. -/
def error_handler (bot : CameraBot) (error : String) : Outcome :=
  { bot := bot
    events := [Event.log .error ("Got error: " ++ error)]
    raised := none }

/-- The replies sent to the originating chat, in order. -/
def sendsOf (o : Outcome) : List Reply :=
  o.events.filterMap (fun e => match e with | Event.send r => some r | _ => none)

/-- The number of calls into the camera collaborator. -/
def camCallCount (o : Outcome) : Nat :=
  (o.events.filter (fun e => match e with | Event.camCall _ => true | _ => false)).length

/-- Substring occurrence test on character lists: `needle` occurs somewhere
in `hay`. -/
def containsSub (needle hay : List Char) : Bool :=
  (List.range (hay.length + 1)).any
    (fun i => decide ((hay.drop i).take needle.length = needle))

/-- Substring occurrence test on strings. -/
def strContains (needle hay : String) : Bool :=
  containsSub needle.data hay.data

/-- Sample time-formatting environment used to instantiate theorems. -/
def fmt0 : TimeFmt :=
  ⟨fun _ => "Mon Jan 1 00:00:00 2024", fun _ => "Mon_Jan_1_00.00.00_2024"⟩

/-- Sample camera that always succeeds, with snapshot counter 3. -/
def okCam : HomeCam :=
  ⟨"Front door", 3, fun _ => Except.ok ("PHOTO", 100), fun _ => Except.ok ()⟩

/-- Sample camera whose operations always fail. -/
def badCam : HomeCam :=
  ⟨"Back door", 0, fun _ => Except.error "connection failed",
   fun _ => Except.error "connection failed"⟩

/-- Sample allow-listed sender. -/
def chat42 : Chat := ⟨42, "john", "John", "Doe"⟩

/-- Sample sender who is not on the allow-list. -/
def chat7 : Chat := ⟨7, "eve", "Eve", "Mallory"⟩

/-- Sample registry entry for `okCam`. -/
def entry0 : CamEntry := ⟨okCam, ["getpic_cam_1"]⟩

/-- Sample bot: allow-list `[42]`, one camera `cam_1`. -/
def bot0 : CameraBot := ⟨"HikBot", [42], [("cam_1", entry0)]⟩

/-- Sample registry entry for `badCam`. -/
def entryBad : CamEntry := ⟨badCam, ["getpic_cam_1", "getfullpic_cam_1"]⟩

/-- Sample bot whose only camera always fails. -/
def botBad : CameraBot := ⟨"HikBot", [42], [("cam_1", entryBad)]⟩

theorem containsSub_of_decomp (n a b : List Char) :
    containsSub n (a ++ (n ++ b)) = true := by
  unfold containsSub
  rw [List.any_eq_true]
  refine ⟨a.length, List.mem_range.mpr ?_, ?_⟩
  · simp [List.length_append]
    omega
  · rw [List.drop_left, decide_eq_true_iff]
    exact List.take_left n b

theorem strContains_of_decomp (n a b : String) :
    strContains n (a ++ (n ++ b)) = true := by
  unfold strContains
  rw [String.data_append, String.data_append]
  exact containsSub_of_decomp n.data a.data b.data

theorem str_empty_append (s : String) : "" ++ s = s :=
  String.ext (by rw [String.data_append]; rfl)

theorem str_append_empty (s : String) : s ++ "" = s :=
  String.ext (by rw [String.data_append]; exact List.append_nil s.data)

/-- A member of the joined list occurs in the join. -/
theorem strJoin_decomp (sep x : String) (l : List String) (hx : x ∈ l) :
    ∃ a b, strJoin sep l = a ++ (x ++ b) := by
  induction l with
  | nil => cases hx
  | cons a t ih =>
    cases t with
    | nil =>
      have h := List.mem_singleton.mp hx
      subst h
      exact ⟨"", "", by rw [strJoin, str_append_empty, str_empty_append]⟩
    | cons b' t' =>
      rcases List.mem_cons.mp hx with h | h
      · subst h
        refine ⟨"", sep ++ strJoin sep (b' :: t'), ?_⟩
        rw [strJoin, str_empty_append, String.append_assoc]
      · obtain ⟨p, q, hpq⟩ := ih h
        refine ⟨a ++ (sep ++ p), q, ?_⟩
        rw [strJoin, hpq]
        simp only [String.append_assoc]

theorem strContains_strJoin (sep x : String) (l : List String) (hx : x ∈ l) :
    strContains x (strJoin sep l) = true := by
  obtain ⟨a, b, h⟩ := strJoin_decomp sep x l hx
  rw [h]
  exact strContains_of_decomp x a b

theorem camAt_lt_length (l : List Char) (i : Nat) (h : camAt l i = true) :
    i < l.length := by
  by_contra hge
  push_neg at hge
  unfold camAt at h
  rw [List.drop_eq_nil_of_le hge] at h
  simp at h

theorem camMatchIdx_ge (l : List Char) (i : Nat) (h : l.length ≤ i) :
    camMatchIdx l i = false := by
  unfold camMatchIdx camAt
  rw [List.drop_eq_nil_of_le h]
  simp

/-- The `getLast?` of a filtered range is the largest index satisfying the
predicate. -/
theorem getLast?_filter_range (p : Nat → Bool) (n i : Nat) (hin : i < n)
    (hp : p i = true) (hmax : ∀ j, i < j → p j = false) :
    ((List.range n).filter p).getLast? = some i := by
  induction n with
  | zero => omega
  | succ m ih =>
    rw [List.range_succ, List.filter_append]
    rcases Nat.lt_or_ge i m with h | h
    · rw [show List.filter p [m] = [] by simp [List.filter_cons, hmax m h]]
      rw [List.append_nil]
      exact ih h
    · have him : i = m := by omega
      subst him
      rw [show List.filter p [i] = [i] by simp [List.filter_cons, hp]]
      exact List.getLast?_concat _

theorem camSplitIdx_eq_some (l : List Char) (i : Nat)
    (h1 : camMatchIdx l i = true) (h2 : ∀ j, i < j → camMatchIdx l j = false) :
    camSplitIdx l = some i := by
  have hAt : camAt l i = true := by
    rw [camMatchIdx, Bool.and_eq_true] at h1
    exact h1.1
  exact getLast?_filter_range (camMatchIdx l) l.length i
    (camAt_lt_length l i hAt) h1 h2

theorem camSplitIdx_eq_none_of_no_cam (s : String)
    (h : strContains "cam_" s = false) : camSplitIdx s.data = none := by
  unfold camSplitIdx
  have hfil : (List.range s.data.length).filter (camMatchIdx s.data) = [] := by
    rw [List.filter_eq_nil_iff]
    intro i hi
    have hi' : i ∈ List.range (s.data.length + 1) :=
      List.mem_range.mpr (Nat.lt_succ_of_lt (List.mem_range.mp hi))
    unfold strContains containsSub at h
    rw [List.any_eq_false] at h
    have hne := h i hi'
    simp only [decide_eq_true_eq] at hne
    have hAt : camAt s.data i = false := by
      unfold camAt
      rw [beq_eq_false_iff_ne]
      exact hne
    simp [camMatchIdx, hAt]
  rw [hfil]
  rfl

/-- C1: an inbound command from a sender outside the allow-list makes any
`authorization_check`-wrapped handler reply exactly once with "Not
authorized", perform zero camera calls, never invoke the wrapped handler
(the outcome is independent of it), log the failure (user id, username,
first/last name) at error severity before the reply, and raise nothing. -/
theorem unauthorized_sender_blocked (bot : CameraBot) (update : Update)
    (func : CameraBot → Update → Outcome)
    (h : update.message.chat.id ∉ bot.user_ids) :
    (authorization_check func bot update).events =
      [Event.log .error "User authorization error",
       Event.log .error (get_user_info update),
       Event.send (.text "Not authorized")] ∧
    sendsOf (authorization_check func bot update) = [Reply.text "Not authorized"] ∧
    camCallCount (authorization_check func bot update) = 0 ∧
    (authorization_check func bot update).raised = none ∧
    (∀ func', authorization_check func' bot update =
      authorization_check func bot update) := by
  refine ⟨?_, ?_, ?_, ?_, ?_⟩ <;>
    simp [authorization_check, h, sendsOf, camCallCount]

/-- Witness for C1 at a concrete unauthorized sender. -/
theorem unauthorized_sender_blocked_witness :
    sendsOf (authorization_check cmd_stop_body bot0 ⟨⟨chat7, "/stop"⟩⟩) =
      [Reply.text "Not authorized"] :=
  (unauthorized_sender_blocked bot0 ⟨⟨chat7, "/stop"⟩⟩ cmd_stop_body
    (by decide)).2.1

/-- C10: for a sender outside the allow-list, any camera-scoped pipeline
produces the same observable events for any two registries and any two
command texts, raises nothing (in particular never a key-not-found), and
performs zero camera calls: extraction and lookup never run for an
unauthorized sender. -/
theorem unauthorized_outcome_registry_independent (name : String)
    (uids : List Int) (chat : Chat) (t1 t2 : String)
    (reg1 reg2 : List (String × CamEntry))
    (func : CameraBot → Update → HomeCam → String → Outcome)
    (h : chat.id ∉ uids) :
    (authorization_check (camera_selection func)
        ⟨name, uids, reg1⟩ ⟨⟨chat, t1⟩⟩).events =
      (authorization_check (camera_selection func)
        ⟨name, uids, reg2⟩ ⟨⟨chat, t2⟩⟩).events ∧
    (authorization_check (camera_selection func)
        ⟨name, uids, reg1⟩ ⟨⟨chat, t1⟩⟩).raised = none ∧
    (authorization_check (camera_selection func)
        ⟨name, uids, reg2⟩ ⟨⟨chat, t2⟩⟩).raised = none ∧
    camCallCount (authorization_check (camera_selection func)
        ⟨name, uids, reg1⟩ ⟨⟨chat, t1⟩⟩) = 0 := by
  refine ⟨?_, ?_, ?_, ?_⟩ <;>
    simp [authorization_check, h, camCallCount, get_user_info]

/-- Witness for C10 at a concrete unauthorized sender and two different
registries and texts. -/
theorem unauthorized_outcome_registry_independent_witness :
    (authorization_check (camera_selection cmd_motion_detection_on_body)
        ⟨"HikBot", [42], bot0.cam_instances⟩ ⟨⟨chat7, "/getpic_cam_1"⟩⟩).events =
      (authorization_check (camera_selection cmd_motion_detection_on_body)
        ⟨"HikBot", [42], []⟩ ⟨⟨chat7, "/getpic_cam_9"⟩⟩).events :=
  (unauthorized_outcome_registry_independent "HikBot" [42] chat7
    "/getpic_cam_1" "/getpic_cam_9" bot0.cam_instances []
    cmd_motion_detection_on_body (by decide)).1

/-- Definition following the SPEC's words (for comparison with the code's
`extract_cam_id`): "take everything in the command text from the first
occurrence of the literal pattern `cam_` onward", the whole text when there
is no occurrence. -/
def specFirstCamSuffix (s : String) : String :=
  match ((List.range s.data.length).filter (camAt s.data)).head? with
  | some i => String.mk (s.data.drop i)
  | none => s

/-- C2 counterexample: on `/getpic_cam_1_cam_2` the code extracts the suffix
from the LAST occurrence of `cam_` (`cam_2`), not from the first occurrence
(`cam_1_cam_2`) as the claim states. -/
theorem extract_cam_id_not_first_occurrence :
    extract_cam_id "/getpic_cam_1_cam_2" = "cam_2" ∧
    specFirstCamSuffix "/getpic_cam_1_cam_2" = "cam_1_cam_2" ∧
    ("cam_2" : String) ≠ "cam_1_cam_2" :=
  ⟨by decide, by decide, by decide⟩

/-- C2 (amended): the resolver extracts everything from the LAST occurrence
of `cam_` that has no newline before it through the end of the string; in
particular `/motion_detection_on_cam_2` yields exactly `cam_2`. -/
theorem extract_cam_id_takes_last_occurrence (s : String) (i : Nat)
    (h1 : camMatchIdx s.data i = true)
    (h2 : ∀ j, i < j → camMatchIdx s.data j = false) :
    extract_cam_id s = String.mk (s.data.drop i) ∧
    extract_cam_id "/motion_detection_on_cam_2" = "cam_2" := by
  refine ⟨?_, by decide⟩
  unfold extract_cam_id
  rw [camSplitIdx_eq_some s.data i h1 h2]

/-- Witness for the amended C2 at the spec's own example command. -/
theorem extract_cam_id_takes_last_occurrence_witness :
    extract_cam_id "/motion_detection_on_cam_2" = "cam_2" :=
  (extract_cam_id_takes_last_occurrence "/motion_detection_on_cam_2" 21
    (by decide)
    (fun j hj => by
      rcases Nat.lt_or_ge j 26 with hlt | hge
      · interval_cases j <;> decide
      · exact camMatchIdx_ge _ j (le_trans (by decide) hge))).2

/-- C9: when the command text has no occurrence of `cam_`, the resolver uses
the whole raw text as the camera identifier: the lookup raises
key-not-found unless the full raw text is itself a registry key, in which
case the handler runs with that identifier. -/
theorem no_cam_marker_uses_full_text (bot : CameraBot) (u : Update)
    (func : CameraBot → Update → HomeCam → String → Outcome)
    (h : strContains "cam_" u.message.text = false) :
    extract_cam_id u.message.text = u.message.text ∧
    (dictGet bot.cam_instances u.message.text = none →
      camera_selection func bot u =
        { bot := bot, events := [], raised := some (Exc.keyError u.message.text) }) ∧
    (∀ entry, dictGet bot.cam_instances u.message.text = some entry →
      camera_selection func bot u = func bot u entry.inst u.message.text) := by
  have hex : extract_cam_id u.message.text = u.message.text := by
    unfold extract_cam_id
    rw [camSplitIdx_eq_none_of_no_cam _ h]
  refine ⟨hex, ?_, ?_⟩
  · intro hnone
    simp [camera_selection, hex, hnone]
  · intro entry hsome
    simp [camera_selection, hex, hsome]

/-- Witness for C9: `/stop` has no `cam_` marker and is not a registry key. -/
theorem no_cam_marker_uses_full_text_witness :
    camera_selection cmd_motion_detection_on_body bot0 ⟨⟨chat42, "/stop"⟩⟩ =
      { bot := bot0, events := [], raised := some (Exc.keyError "/stop") } :=
  (no_cam_marker_uses_full_text bot0 ⟨⟨chat42, "/stop"⟩⟩
    cmd_motion_detection_on_body (by decide)).2.1 rfl

theorem auth_preserves_bot (func : CameraBot → Update → Outcome)
    (h : ∀ b u, (func b u).bot = b) (b : CameraBot) (u : Update) :
    (authorization_check func b u).bot = b := by
  unfold authorization_check
  split
  · exact h b u
  · rfl

theorem camsel_preserves_bot
    (func : CameraBot → Update → HomeCam → String → Outcome)
    (h : ∀ b u c i, (func b u c i).bot = b) (b : CameraBot) (u : Update) :
    (camera_selection func b u).bot = b := by
  cases hd : dictGet b.cam_instances (extract_cam_id u.message.text) with
  | none => simp [camera_selection, hd]
  | some e => simp [camera_selection, hd, h]

theorem cmd_getpic_body_bot (fmt : TimeFmt) (b : CameraBot) (u : Update)
    (c : HomeCam) (i : String) : (cmd_getpic_body fmt b u c i).bot = b := by
  cases hs : c.take_snapshot true with
  | error e => simp [cmd_getpic_body, hs]
  | ok p =>
    obtain ⟨ph, ts⟩ := p
    simp [cmd_getpic_body, hs]

theorem cmd_getfullpic_body_bot (fmt : TimeFmt) (b : CameraBot) (u : Update)
    (c : HomeCam) (i : String) : (cmd_getfullpic_body fmt b u c i).bot = b := by
  cases hs : c.take_snapshot false with
  | error e => simp [cmd_getfullpic_body, hs]
  | ok p =>
    obtain ⟨ph, ts⟩ := p
    simp [cmd_getfullpic_body, hs]

theorem cmd_motion_on_body_bot (b : CameraBot) (u : Update)
    (c : HomeCam) (i : String) :
    (cmd_motion_detection_on_body b u c i).bot = b := by
  cases hs : c.motion_detection_switch true with
  | error e => simp [cmd_motion_detection_on_body, hs]
  | ok v => simp [cmd_motion_detection_on_body, hs]

theorem cmd_motion_off_body_bot (b : CameraBot) (u : Update)
    (c : HomeCam) (i : String) :
    (cmd_motion_detection_off_body b u c i).bot = b := by
  cases hs : c.motion_detection_switch false with
  | error e => simp [cmd_motion_detection_off_body, hs]
  | ok v => simp [cmd_motion_detection_off_body, hs]

theorem cmd_help_bot (b : CameraBot) (u : Update) (a r : Bool)
    (cid : Option String) : (cmd_help b u a r cid).bot = b := by
  cases r with
  | true => simp [cmd_help]
  | false =>
    cases a with
    | false => simp [cmd_help]
    | true =>
      cases cid with
      | none => simp [cmd_help]
      | some c =>
        cases hd : dictGet b.cam_instances c with
        | none => simp [cmd_help, hd]
        | some e => simp [cmd_help, hd]

/-- C8: every operation of the module (the decorated command handlers, the
help handler, the reply dispatcher and the startup broadcast) leaves the
bot state — in particular the camera registry and the user allow-list —
unchanged. -/
theorem registry_and_allowlist_read_only (fmt : TimeFmt) (bot : CameraBot)
    (u : Update) (append requested : Bool) (cam_id : Option String)
    (photo : String) (upd : Option Update)
    (caption reply_text fsn : Option String)
    (full_pic from_watchdog : Bool) (err : String) :
    (cmd_getpic fmt bot u).bot = bot ∧
    (cmd_getfullpic fmt bot u).bot = bot ∧
    (cmd_stop bot u).bot = bot ∧
    (cmd_list_cams bot u).bot = bot ∧
    (cmd_motion_detection_on bot u).bot = bot ∧
    (cmd_motion_detection_off bot u).bot = bot ∧
    (cmd_help bot u append requested cam_id).bot = bot ∧
    (send_cam_photo bot photo upd caption reply_text fsn full_pic
      from_watchdog).bot = bot ∧
    (send_startup_message bot).bot = bot ∧
    (error_handler bot err).bot = bot := by
  refine ⟨?_, ?_, ?_, ?_, ?_, ?_, cmd_help_bot bot u append requested cam_id,
    ?_, rfl, rfl⟩
  · exact auth_preserves_bot _
      (camsel_preserves_bot _ (cmd_getpic_body_bot fmt)) bot u
  · exact auth_preserves_bot _
      (camsel_preserves_bot _ (cmd_getfullpic_body_bot fmt)) bot u
  · exact auth_preserves_bot _ (fun b u' => rfl) bot u
  · exact auth_preserves_bot _ (fun b u' => rfl) bot u
  · exact auth_preserves_bot _
      (camsel_preserves_bot _ cmd_motion_on_body_bot) bot u
  · exact auth_preserves_bot _
      (camsel_preserves_bot _ cmd_motion_off_body_bot) bot u
  · unfold send_cam_photo
    split <;> rfl

theorem footer_ne_generic (x y : String) :
    "Available commands\n" ++ x ++ y ≠
      "Use /list command to list available cameras and commands" := by
  intro hcontra
  have h2 := congrArg (fun s : String => s.data.head?) hcontra
  simp only [String.data_append] at h2
  simp only [List.cons_append, List.head?_cons] at h2
  exact absurd h2 (by decide)

/-- C7: per invocation of the help handler, the caller-supplied flags select
exactly one mode: with `requested` set it sends only the generic pointer to
`/list`; with `requested` unset and `append` set it sends only the
camera-specific command list, which is not the generic pointer. -/
theorem cmd_help_two_modes (bot : CameraBot) (u : Update)
    (append requested : Bool) (cam_id : Option String) :
    (requested = true →
      sendsOf (cmd_help bot u append requested cam_id) =
        [Reply.text "Use /list command to list available cameras and commands"] ∧
      (cmd_help bot u append requested cam_id).raised = none) ∧
    (requested = false → append = true →
      ∀ cid entry, cam_id = some cid →
        dictGet bot.cam_instances cid = some entry →
        sendsOf (cmd_help bot u append requested cam_id) =
          [Reply.text ("Available commands\n" ++
            strJoin "\n" (entry.commands.map (fun x => "/" ++ x)) ++
            " or /list available cameras")] ∧
        "Available commands\n" ++
            strJoin "\n" (entry.commands.map (fun x => "/" ++ x)) ++
            " or /list available cameras" ≠
          "Use /list command to list available cameras and commands") := by
  constructor
  · intro hr
    subst hr
    exact ⟨by simp [cmd_help, sendsOf], by simp [cmd_help]⟩
  · intro hr ha cid entry hcid hd
    subst hr
    subst ha
    subst hcid
    refine ⟨?_, footer_ne_generic _ _⟩
    simp [cmd_help, sendsOf, hd]

/-- Witness for C7: both modes at concrete inputs. -/
theorem cmd_help_two_modes_witness :
    sendsOf (cmd_help bot0 ⟨⟨chat42, "/help"⟩⟩ false true none) =
      [Reply.text "Use /list command to list available cameras and commands"] ∧
    sendsOf (cmd_help bot0 ⟨⟨chat42, "/getpic_cam_1"⟩⟩ true false (some "cam_1")) =
      [Reply.text ("Available commands\n" ++
        strJoin "\n" (entry0.commands.map (fun x => "/" ++ x)) ++
        " or /list available cameras")] :=
  ⟨((cmd_help_two_modes bot0 ⟨⟨chat42, "/help"⟩⟩ false true none).1 rfl).1,
   ((cmd_help_two_modes bot0 ⟨⟨chat42, "/getpic_cam_1"⟩⟩ true false
      (some "cam_1")).2 rfl rfl "cam_1" entry0 rfl rfl).1⟩

/-- How many registry bindings carry the key `k`. -/
def countKey (l : List (String × CamEntry)) (k : String) : Nat :=
  (l.filter (fun p => decide (p.1 = k))).length

theorem countKey_eq_zero (l : List (String × CamEntry)) (k : String)
    (h : k ∉ l.map Prod.fst) : countKey l k = 0 := by
  unfold countKey
  rw [List.length_eq_zero, List.filter_eq_nil_iff]
  intro p hp
  simp only [decide_eq_true_eq]
  intro hpk
  exact h (List.mem_map.mpr ⟨p, hp, hpk⟩)

theorem dictGet_unique (l : List (String × CamEntry)) (k : String)
    (v : CamEntry) (hnd : (l.map Prod.fst).Nodup) (h : dictGet l k = some v) :
    countKey l k = 1 := by
  induction l with
  | nil => simp [dictGet] at h
  | cons p t ih =>
    obtain ⟨k1, v1⟩ := p
    rw [List.map_cons, List.nodup_cons] at hnd
    by_cases hk : k1 = k
    · subst hk
      have h0 : countKey t k1 = 0 := countKey_eq_zero t k1 hnd.1
      unfold countKey at h0 ⊢
      rw [List.filter_cons]
      simp [h0]
    · have h' : dictGet t k = some v := by
        unfold dictGet at h
        rwa [if_neg hk] at h
      have hcnt := ih hnd.2 h'
      unfold countKey at hcnt ⊢
      rw [List.filter_cons]
      simp [hk, hcnt]

/-- C3: an authorized request whose extracted camera identifier is not a
registry key raises key-not-found out of the resolver uncaught, with no
events and no reply; the generic error handler only logs.  Conversely a
camera-scoped handler body runs only when the lookup resolves an entry, and
(for a duplicate-free registry) exactly one entry carries that key. -/
theorem unresolved_camera_raises_keyerror (bot : CameraBot) (u : Update)
    (func : CameraBot → Update → HomeCam → String → Outcome) (err : String)
    (hauth : u.message.chat.id ∈ bot.user_ids)
    (hnone : dictGet bot.cam_instances (extract_cam_id u.message.text) = none) :
    (authorization_check (camera_selection func) bot u).raised =
      some (Exc.keyError (extract_cam_id u.message.text)) ∧
    (authorization_check (camera_selection func) bot u).events = [] ∧
    sendsOf (authorization_check (camera_selection func) bot u) = [] ∧
    (error_handler bot err).events = [Event.log .error ("Got error: " ++ err)] ∧
    sendsOf (error_handler bot err) = [] ∧
    (∀ (bot' : CameraBot) (u' : Update)
        (func' : CameraBot → Update → HomeCam → String → Outcome)
        (entry : CamEntry),
      (bot'.cam_instances.map Prod.fst).Nodup →
      dictGet bot'.cam_instances (extract_cam_id u'.message.text) = some entry →
      camera_selection func' bot' u' =
        func' bot' u' entry.inst (extract_cam_id u'.message.text) ∧
      countKey bot'.cam_instances (extract_cam_id u'.message.text) = 1) := by
  refine ⟨?_, ?_, ?_, by simp [error_handler], by simp [error_handler, sendsOf], ?_⟩
  · simp [authorization_check, hauth, camera_selection, hnone]
  · simp [authorization_check, hauth, camera_selection, hnone]
  · simp [authorization_check, hauth, camera_selection, hnone, sendsOf]
  · intro bot' u' func' entry hnd hsome
    exact ⟨by simp [camera_selection, hsome], dictGet_unique _ _ _ hnd hsome⟩

/-- Witness for C3: authorized user asks for unknown camera `cam_9`. -/
theorem unresolved_camera_raises_keyerror_witness :
    (authorization_check (camera_selection (cmd_getpic_body fmt0)) bot0
      ⟨⟨chat42, "/getpic_cam_9"⟩⟩).raised =
      some (Exc.keyError (extract_cam_id "/getpic_cam_9")) :=
  (unresolved_camera_raises_keyerror bot0 ⟨⟨chat42, "/getpic_cam_9"⟩⟩
    (cmd_getpic_body fmt0) "KeyError" (by decide) rfl).1

theorem strContains_of_eq (n h a b : String) (he : h = a ++ (n ++ b)) :
    strContains n h = true :=
  he ▸ strContains_of_decomp n a b

theorem strContains_left (n b : String) : strContains n (n ++ b) = true :=
  strContains_of_eq n (n ++ b) "" b (by rw [str_empty_append])

/-- C4: for an authorized, resolvable camera-scoped command whose camera
operation fails with the camera-domain error, exactly one text reply
containing the error message is sent (for the snapshot commands it also
carries the try-another-camera hint), no help footer follows, and the error
does not propagate. -/
theorem camera_failure_single_reply (fmt : TimeFmt) (bot : CameraBot)
    (u : Update) (entry : CamEntry)
    (hauth : u.message.chat.id ∈ bot.user_ids)
    (hlook : dictGet bot.cam_instances (extract_cam_id u.message.text) =
      some entry) :
    (∀ err, entry.inst.take_snapshot true = Except.error err →
      sendsOf (cmd_getpic fmt bot u) =
        [Reply.text (err ++ "\nTry later or /list other cameras")] ∧
      strContains err (err ++ "\nTry later or /list other cameras") = true ∧
      (cmd_getpic fmt bot u).raised = none) ∧
    (∀ err, entry.inst.take_snapshot false = Except.error err →
      sendsOf (cmd_getfullpic fmt bot u) =
        [Reply.text (err ++ "\nTry later or /list other cameras")] ∧
      strContains err (err ++ "\nTry later or /list other cameras") = true ∧
      (cmd_getfullpic fmt bot u).raised = none) ∧
    (∀ err, entry.inst.motion_detection_switch true = Except.error err →
      sendsOf (cmd_motion_detection_on bot u) = [Reply.text err] ∧
      (cmd_motion_detection_on bot u).raised = none) ∧
    (∀ err, entry.inst.motion_detection_switch false = Except.error err →
      sendsOf (cmd_motion_detection_off bot u) = [Reply.text err] ∧
      (cmd_motion_detection_off bot u).raised = none) := by
  refine ⟨?_, ?_, ?_, ?_⟩ <;> intro err herr
  · exact ⟨by simp [cmd_getpic, authorization_check, hauth, camera_selection,
        hlook, cmd_getpic_body, herr, sendsOf],
      strContains_left err "\nTry later or /list other cameras",
      by simp [cmd_getpic, authorization_check, hauth, camera_selection,
        hlook, cmd_getpic_body, herr]⟩
  · exact ⟨by simp [cmd_getfullpic, authorization_check, hauth,
        camera_selection, hlook, cmd_getfullpic_body, herr, sendsOf],
      strContains_left err "\nTry later or /list other cameras",
      by simp [cmd_getfullpic, authorization_check, hauth, camera_selection,
        hlook, cmd_getfullpic_body, herr]⟩
  · exact ⟨by simp [cmd_motion_detection_on, authorization_check, hauth,
        camera_selection, hlook, cmd_motion_detection_on_body, herr, sendsOf],
      by simp [cmd_motion_detection_on, authorization_check, hauth,
        camera_selection, hlook, cmd_motion_detection_on_body, herr]⟩
  · exact ⟨by simp [cmd_motion_detection_off, authorization_check, hauth,
        camera_selection, hlook, cmd_motion_detection_off_body, herr, sendsOf],
      by simp [cmd_motion_detection_off, authorization_check, hauth,
        camera_selection, hlook, cmd_motion_detection_off_body, herr]⟩

/-- Witness for C4: the always-failing camera at a concrete request. -/
theorem camera_failure_single_reply_witness :
    sendsOf (cmd_getpic fmt0 botBad ⟨⟨chat42, "/getpic_cam_1"⟩⟩) =
      [Reply.text ("connection failed" ++ "\nTry later or /list other cameras")] ∧
    sendsOf (cmd_motion_detection_on botBad ⟨⟨chat42, "/motion_detection_on_cam_1"⟩⟩) =
      [Reply.text "connection failed"] :=
  ⟨((camera_failure_single_reply fmt0 botBad ⟨⟨chat42, "/getpic_cam_1"⟩⟩
      entryBad (by decide) rfl).1 "connection failed" rfl).1,
   ((camera_failure_single_reply fmt0 botBad
      ⟨⟨chat42, "/motion_detection_on_cam_1"⟩⟩ entryBad (by decide) rfl).2.2.1
      "connection failed" rfl).1⟩

/-- C5: for an authorized `/getpic_cam_X` on a resolvable camera whose
snapshot succeeds, the handler sends the acknowledgment text, then exactly
one photo reply whose caption embeds the formatted timestamp and contains
`pic #<counter>`, then exactly one help-footer reply listing that camera's
commands as slash tokens; nothing propagates. -/
theorem getpic_success_photo_then_footer (fmt : TimeFmt) (bot : CameraBot)
    (u : Update) (entry : CamEntry) (photo : String) (ts : Int)
    (hauth : u.message.chat.id ∈ bot.user_ids)
    (hlook : dictGet bot.cam_instances (extract_cam_id u.message.text) =
      some entry)
    (hsnap : entry.inst.take_snapshot true = Except.ok (photo, ts)) :
    sendsOf (cmd_getpic fmt bot u) =
      [Reply.text ("Sending pic from " ++ entry.inst.description ++ "..."),
       Reply.photo photo (some ("Pic taken on " ++ fmt.human ts ++ " (pic #" ++
         toString entry.inst.snapshots_taken ++ ")")),
       Reply.text ("Available commands\n" ++
         strJoin "\n" (entry.commands.map (fun x => "/" ++ x)) ++
         " or /list available cameras")] ∧
    strContains ("pic #" ++ toString entry.inst.snapshots_taken)
      ("Pic taken on " ++ fmt.human ts ++ " (pic #" ++
        toString entry.inst.snapshots_taken ++ ")") = true ∧
    (∀ c ∈ entry.commands,
      strContains ("/" ++ c)
        ("Available commands\n" ++
          strJoin "\n" (entry.commands.map (fun x => "/" ++ x)) ++
          " or /list available cameras") = true) ∧
    (cmd_getpic fmt bot u).raised = none := by
  refine ⟨?_, ?_, ?_, ?_⟩
  · simp [cmd_getpic, authorization_check, hauth, camera_selection, hlook,
      cmd_getpic_body, hsnap, send_cam_photo, print_helper, cmd_help, sendsOf]
  · apply strContains_of_eq _ _ (("Pic taken on " ++ fmt.human ts) ++ " (") ")"
    rw [show (" (pic #" : String) = " (" ++ "pic #" from rfl]
    simp only [String.append_assoc]
  · intro c hc
    obtain ⟨p, q, hpq⟩ := strJoin_decomp "\n" ("/" ++ c)
      (entry.commands.map (fun x => "/" ++ x))
      (List.mem_map.mpr ⟨c, hc, rfl⟩)
    apply strContains_of_eq _ _ ("Available commands\n" ++ p)
      (q ++ " or /list available cameras")
    rw [hpq]
    simp only [String.append_assoc]
  · simp [cmd_getpic, authorization_check, hauth, camera_selection, hlook,
      cmd_getpic_body, hsnap, print_helper, cmd_help]

/-- Witness for C5 at the spec's example scenario: allow-list `[42]`,
registry `cam_1` with description "Front door", snapshot counter 3. -/
theorem getpic_success_photo_then_footer_witness :
    sendsOf (cmd_getpic fmt0 bot0 ⟨⟨chat42, "/getpic_cam_1"⟩⟩) =
      [Reply.text ("Sending pic from " ++ entry0.inst.description ++ "..."),
       Reply.photo "PHOTO" (some ("Pic taken on " ++ fmt0.human 100 ++
         " (pic #" ++ toString entry0.inst.snapshots_taken ++ ")")),
       Reply.text ("Available commands\n" ++
         strJoin "\n" (entry0.commands.map (fun x => "/" ++ x)) ++
         " or /list available cameras")] ∧
    strContains ("pic #" ++ toString entry0.inst.snapshots_taken)
      ("Pic taken on " ++ fmt0.human 100 ++ " (pic #" ++
        toString entry0.inst.snapshots_taken ++ ")") = true :=
  ⟨(getpic_success_photo_then_footer fmt0 bot0 ⟨⟨chat42, "/getpic_cam_1"⟩⟩
      entry0 "PHOTO" 100 (by decide) rfl rfl).1,
   (getpic_success_photo_then_footer fmt0 bot0 ⟨⟨chat42, "/getpic_cam_1"⟩⟩
      entry0 "PHOTO" 100 (by decide) rfl rfl).2.1⟩

/-- C6: an authorized `/list` over a registry of N cameras yields a single
HTML reply: the N-announcing header joined with exactly one block per
camera; each block contains that camera's identifier, description, and each
supported command as a slash token, and each block occurs in the reply. -/
theorem list_cams_single_html_reply (bot : CameraBot) (u : Update)
    (hauth : u.message.chat.id ∈ bot.user_ids) :
    sendsOf (cmd_list_cams bot u) =
      [Reply.html (strJoin "\n\n"
        (("<b>You have " ++ toString bot.cam_instances.length ++
          " cameras:</b>") :: bot.cam_instances.map listCamBlock))] ∧
    (bot.cam_instances.map listCamBlock).length = bot.cam_instances.length ∧
    (∀ p ∈ bot.cam_instances,
      strContains (listCamBlock p)
        (strJoin "\n\n"
          (("<b>You have " ++ toString bot.cam_instances.length ++
            " cameras:</b>") :: bot.cam_instances.map listCamBlock)) = true ∧
      strContains p.1 (listCamBlock p) = true ∧
      strContains p.2.inst.description (listCamBlock p) = true ∧
      ∀ c ∈ p.2.commands,
        strContains ("/" ++ c) (listCamBlock p) = true) := by
  refine ⟨?_, List.length_map _ _, ?_⟩
  · simp [cmd_list_cams, authorization_check, hauth, cmd_list_cams_body, sendsOf]
  · intro p hp
    refine ⟨?_, ?_, ?_, ?_⟩
    · exact strContains_strJoin "\n\n" (listCamBlock p) _
        (List.mem_cons_of_mem _ (List.mem_map.mpr ⟨p, hp, rfl⟩))
    · apply strContains_of_eq _ _ "<b>Camera:</b> "
        ("\n<b>Description:</b> " ++ (p.2.inst.description ++
          ("\n<b>Commands:</b> " ++
            strJoin ", " (p.2.commands.map (fun c => "/" ++ c)))))
      unfold listCamBlock
      simp only [String.append_assoc]
    · apply strContains_of_eq _ _
        ("<b>Camera:</b> " ++ (p.1 ++ "\n<b>Description:</b> "))
        ("\n<b>Commands:</b> " ++
          strJoin ", " (p.2.commands.map (fun c => "/" ++ c)))
      unfold listCamBlock
      simp only [String.append_assoc]
    · intro c hc
      obtain ⟨q, r, hqr⟩ := strJoin_decomp ", " ("/" ++ c)
        (p.2.commands.map (fun x => "/" ++ x))
        (List.mem_map.mpr ⟨c, hc, rfl⟩)
      apply strContains_of_eq _ _
        ("<b>Camera:</b> " ++ (p.1 ++ ("\n<b>Description:</b> " ++
          (p.2.inst.description ++ ("\n<b>Commands:</b> " ++ q))))) r
      unfold listCamBlock
      rw [hqr]
      simp only [String.append_assoc]

/-- Witness for C6 at the one-camera sample registry. -/
theorem list_cams_single_html_reply_witness :
    sendsOf (cmd_list_cams bot0 ⟨⟨chat42, "/list"⟩⟩) =
      [Reply.html (strJoin "\n\n"
        (("<b>You have " ++ toString bot0.cam_instances.length ++
          " cameras:</b>") :: bot0.cam_instances.map listCamBlock))] :=
  (list_cams_single_html_reply bot0 ⟨⟨chat42, "/list"⟩⟩ (by decide)).1
